import Mathlib

/-!
Verification development for the Finanzassistent repository
(`src/main.py` and `src/streamlit_app.py`).

Python dictionaries are modelled as insertion-ordered association lists
(`List (String × α)`): `d.get(k, default)` becomes `getD`, and the
assignment `d[k] = v` becomes `setze`, which updates an existing key in
place and otherwise appends the new key at the end, exactly as a Python
dict preserves insertion order.  JSON numbers are modelled as rationals
(`ℚ`), exact arithmetic on the decimal values the program manipulates.
The core functions of `src/main.py` live in namespace `Main`, the
duplicated ones of `src/streamlit_app.py` in namespace `StreamlitApp`.
-/

/-- Python `d.get(schluessel, standard)` on an insertion-ordered dict. -/
def getD {α : Type} : List (String × α) → String → α → α
  | [], _, standard => standard
  | (k, v) :: rest, schluessel, standard =>
    if k = schluessel then v else getD rest schluessel standard

/-- Python `d[schluessel] = wert`: update the existing entry in place,
otherwise append the new key at the end (insertion order). -/
def setze {α : Type} : List (String × α) → String → α → List (String × α)
  | [], schluessel, wert => [(schluessel, wert)]
  | (k, v) :: rest, schluessel, wert =>
    if k = schluessel then (schluessel, wert) :: rest
    else (k, v) :: setze rest schluessel wert

/-- A bank transaction record with both keys present:
`{"kategorie": string, "betrag": number}` (spec §3, §6). -/
structure Transaktion where
  kategorie : String
  betrag : ℚ
deriving DecidableEq

namespace Main

/-- Loop body and accumulator of `berechne_monatliche_ausgaben`
(src/main.py lines 42–48): for each transaction, read `kategorie` and
`betrag`; if `betrag < 0`, add `abs(betrag)` to the running total of the
category. -/
def berechne_monatliche_ausgaben_schleife (ausgaben : List (String × ℚ)) :
    List Transaktion → List (String × ℚ)
  | [] => ausgaben
  | t :: rest =>
    if t.betrag < 0 then
      berechne_monatliche_ausgaben_schleife
        (setze ausgaben t.kategorie (getD ausgaben t.kategorie 0 + |t.betrag|)) rest
    else
      berechne_monatliche_ausgaben_schleife ausgaben rest

/-- `berechne_monatliche_ausgaben` (src/main.py lines 32–48): fold the
transaction list into the `ausgaben` dict, starting from `{}`. -/
def berechne_monatliche_ausgaben (daten : List Transaktion) : List (String × ℚ) :=
  berechne_monatliche_ausgaben_schleife [] daten

end Main

/-- The list of keys of a modelled dict, in insertion order. -/
def schluessel {α : Type} (m : List (String × α)) : List String :=
  m.map Prod.fst

/-- First occurrences of each string in a list, skipping those already
seen; characterises the key order a Python dict builds up. -/
def ersteVorkommen (gesehen : List String) : List String → List String
  | [] => []
  | k :: rest =>
    if k ∈ gesehen then ersteVorkommen gesehen rest
    else k :: ersteVorkommen (k :: gesehen) rest

/-- The categories of the negative (expense) transactions, in list order. -/
def negativKategorien (daten : List Transaktion) : List String :=
  (daten.filter fun t => decide (t.betrag < 0)).map Transaktion.kategorie

/-- The preferences JSON document: a dict that may contain the key
`"Prioritäten"` mapping category → `"hoch" | "mittel" | "niedrig"`
(spec §6); getting `"Prioritäten"` with an empty-dict default becomes
`prioritaeten.getD []`. -/
structure Praeferenzen where
  prioritaeten : Option (List (String × String))

/-- The discount applied by the three priority branches of
`empfehle_einsparungen` and `erstelle_monatsbericht`: 50% for `"hoch"`,
30% for `"mittel"`, 10% otherwise. -/
def rabattsatz (prioritaet : String) : ℚ :=
  if prioritaet = "hoch" then 0.5 else if prioritaet = "mittel" then 0.3 else 0.1

/-- The fitness JSON document: a dict that may contain
`"Schritte_pro_Tag"` (array of numbers) and `"Sportaktivitäten"`
(array of strings), spec §6. -/
structure Fitnessdaten where
  schritte_pro_tag : Option (List ℚ)
  sportaktivitaeten : Option (List String)

/-- Which branch the 8000-step threshold selects: `unter_ziel` is the
`st.warning` / "versuche mehr zu gehen" branch ("below target"),
`auf_ziel` the `st.success` / "weiter so!" branch ("on target"). -/
inductive Schrittbewertung where
  | unter_ziel
  | auf_ziel
deriving DecidableEq

/-- Left-pad the digits of `n` with zeros to `stellen` digits (the
fractional part of a fixed-point format). -/
def fuehrendeNullen (stellen : ℕ) (n : ℕ) : String :=
  String.mk (List.replicate (stellen - (toString n).length) '0') ++ toString n

/-- Round half to even, the rounding Python's fixed-point formatting
applies to the decimal value. -/
def rundeHalbZuGerade (x : ℚ) : ℤ :=
  let u := ⌊x⌋
  let r := x - u
  if r < 1 / 2 then u
  else if 1 / 2 < r then u + 1
  else if u % 2 = 0 then u else u + 1

/-- Python's fixed-point format of `x` with `stellen` fractional digits,
on the exact decimal value. -/
def formatFest (stellen : ℕ) (x : ℚ) : String :=
  let gerundet := rundeHalbZuGerade (x * (10 : ℚ) ^ stellen)
  let vorzeichen := if gerundet < 0 then "-" else ""
  let n := gerundet.natAbs
  if stellen = 0 then vorzeichen ++ toString n
  else
    vorzeichen ++ toString (n / 10 ^ stellen) ++ "." ++
      fuehrendeNullen stellen (n % 10 ^ stellen)

/-- Fractional digits of `r / n` by long division; `ziffern` bounds the
number of digits, enough for every terminating decimal handled here. -/
def nachkommastellen : ℕ → ℕ → ℕ → String
  | 0, _, _ => ""
  | ziffern + 1, r, n =>
    if r = 0 then "" else toString (r * 10 / n) ++ nachkommastellen ziffern (r * 10 % n) n

/-- Python `str` of a float holding the exact decimal value `x`: integer
part, a dot, and the fractional digits (at least one, as in `"1200.0"`). -/
def pyFloatStr (x : ℚ) : String :=
  let vorzeichen := if x < 0 then "-" else ""
  let n := x.num.natAbs
  let bruchteil := nachkommastellen 17 (n % x.den) x.den
  vorzeichen ++ toString (n / x.den) ++ "." ++ (if bruchteil = "" then "0" else bruchteil)

/-- Result of `berechne_monatliche_sparrate`: the Python function returns
either the rate (a number) or, from the `except ZeroDivisionError`
branch, an error-message string. -/
inductive SparrateErgebnis where
  | rate (wert : ℚ)
  | fehler (meldung : String)
deriving DecidableEq

/-- Outcome of the SMTP session in `sende_email` (`connect`, `starttls`,
`login`, `send_message`): either it completes, or some step raises an
exception whose text is `meldung` (transport or authentication failure). -/
inductive SmtpAusgang where
  | erfolg
  | ausnahme (meldung : String)
deriving DecidableEq

/-- Outcome of the external `validate_email`: the normalised address, or
`EmailNotValidError` carrying a message. -/
inductive ValidierungsAusgang where
  | gueltig (email : String)
  | ungueltig (meldung : String)
deriving DecidableEq

/-- A concrete validator used to instantiate the notifier theorems:
rejects the empty string, accepts anything else unchanged. -/
def beispiel_validierung (adresse : String) : ValidierungsAusgang :=
  if adresse = "" then .ungueltig "leer" else .gueltig adresse

/-- A raw JSON transaction record in which either key may be missing. -/
structure RohTransaktion where
  kategorie : Option String
  betrag : Option ℚ
deriving DecidableEq

/-- Result of aggregating raw records: the finished dict, or the
`KeyError` Python raises on the first record missing a key. -/
inductive AusgabenErgebnis where
  | ok (ausgaben : List (String × ℚ))
  | keyError (schluessel : String)
deriving DecidableEq

namespace Main

/-- Loop body of `empfehle_einsparungen` (src/main.py lines 96–109): look
up the category's priority, defaulting to `"niedrig"`, branch on it, and
compute the reduced rate shown for the category; the data displayed in
one bullet line is the triple (category, new rate, discount). -/
def einsparungs_empfehlung (prioritaeten : List (String × String))
    (kb : String × ℚ) : String × ℚ × ℚ :=
  let prioritaet := getD prioritaeten kb.1 "niedrig"
  if prioritaet = "hoch" then
    let einsparung := kb.2 * 0.5
    let neue_rate := kb.2 - einsparung
    (kb.1, neue_rate, 0.5)
  else if prioritaet = "mittel" then
    let einsparung := kb.2 * 0.3
    let neue_rate := kb.2 - einsparung
    (kb.1, neue_rate, 0.3)
  else
    let einsparung := kb.2 * 0.1
    let neue_rate := kb.2 - einsparung
    (kb.1, neue_rate, 0.1)

/-- `empfehle_einsparungen` (src/main.py lines 85–109): read the
`"Prioritäten"` dict (default empty) and emit one recommendation per
category of the spend dict, in its iteration order. -/
def empfehle_einsparungen (ausgaben : List (String × ℚ)) (praef : Praeferenzen) :
    List (String × ℚ × ℚ) :=
  let prioritaeten := praef.prioritaeten.getD []
  ausgaben.map (einsparungs_empfehlung prioritaeten)

/-- `analysiere_fitnessdaten` (src/main.py lines 132–145): average the
daily steps (0 for an empty sequence, avoiding the zero division) and
pass the activities through. -/
def analysiere_fitnessdaten (fitnessdaten : Fitnessdaten) : ℚ × List String :=
  let schritte := fitnessdaten.schritte_pro_tag.getD []
  let durchschnittsschritte :=
    if schritte ≠ [] then schritte.sum / (schritte.length : ℚ) else 0
  let aktivitaeten := fitnessdaten.sportaktivitaeten.getD []
  (durchschnittsschritte, aktivitaeten)

/-- The branch `empfehle_fitness_und_sparen` takes on the average
(src/main.py lines 156–159): `st.warning` below 8000 steps, `st.success`
otherwise. -/
def empfehle_fitness_und_sparen (durchschnittsschritte : ℚ) : Schrittbewertung :=
  if durchschnittsschritte < 8000 then .unter_ziel else .auf_ziel

/-- One bullet line of the recommendation section of the report
(src/main.py lines 198–211), same branching as `einsparungs_empfehlung`. -/
def empfehlungs_zeile (prioritaeten : List (String × String))
    (kb : String × ℚ) : String :=
  let prioritaet := getD prioritaeten kb.1 "niedrig"
  if prioritaet = "hoch" then
    let einsparung := kb.2 * 0.5
    let neue_rate := kb.2 - einsparung
    "- **" ++ kb.1 ++ "**: Reduziere auf **" ++ formatFest 2 neue_rate ++
      " Euro** (50% Einsparung)\n"
  else if prioritaet = "mittel" then
    let einsparung := kb.2 * 0.3
    let neue_rate := kb.2 - einsparung
    "- **" ++ kb.1 ++ "**: Reduziere auf **" ++ formatFest 2 neue_rate ++
      " Euro** (30% Einsparung)\n"
  else
    let einsparung := kb.2 * 0.1
    let neue_rate := kb.2 - einsparung
    "- **" ++ kb.1 ++ "**: Reduziere auf **" ++ formatFest 2 neue_rate ++
      " Euro** (10% Einsparung)\n"

/-- The fitness bullet line of the report (src/main.py lines 214–217):
the `st.warning`-style text below 8000 steps, "weiter so!" otherwise. -/
def fitness_zeile (durchschnittsschritte : ℚ) : String :=
  if durchschnittsschritte < 8000 then
    "- Dein durchschnittlicher Schrittzahl ist **" ++
      formatFest 0 durchschnittsschritte ++
      "**, versuche mehr zu gehen, um Gesundheit und eventuell Kosten zu sparen.\n"
  else
    "- Dein durchschnittlicher Schrittzahl ist **" ++
      formatFest 0 durchschnittsschritte ++ "**, weiter so!\n"

/-- `erstelle_monatsbericht` (src/main.py lines 165–223): the report text,
assembled exactly in source order — header with goal, horizon and rate,
the spend lines, the recommendation lines, the fitness line, and the
activity lines. -/
def erstelle_monatsbericht (sparziel : ℚ) (zeitraum : ℤ) (monatliche_rate : ℚ)
    (ausgaben : List (String × ℚ)) (praef : Praeferenzen)
    (durchschnittsschritte : ℚ) (aktivitaeten : List String) : String :=
  let bericht := "\n**Monatsbericht**\n=================\n\n**Sparziel:** "
      ++ pyFloatStr sparziel ++ " Euro  \n**Zeitraum:** " ++ toString zeitraum
      ++ " Monate  \n**Monatliche Sparrate:** " ++ formatFest 2 monatliche_rate
      ++ " Euro  \n\n---\n\n**Ausgaben pro Kategorie:**\n"
  let bericht := bericht ++ String.join (ausgaben.map (fun kb =>
      "- **" ++ kb.1 ++ "**: " ++ formatFest 2 kb.2 ++ " Euro\n"))
  let bericht := bericht ++
      "\n**Empfehlungen zur Einsparung basierend auf deinen Präferenzen:**\n"
  let prioritaeten := praef.prioritaeten.getD []
  let bericht := bericht ++ String.join (ausgaben.map (empfehlungs_zeile prioritaeten))
  let bericht := bericht ++ "\n**Empfehlungen basierend auf deinen Fitness-Daten:**\n"
  let bericht := bericht ++ fitness_zeile durchschnittsschritte
  let bericht := bericht ++
      "- **Sportaktivitäten**, die du kostengünstig gestalten kannst:\n"
  bericht ++ String.join (aktivitaeten.map (fun aktivitaet => "  * " ++ aktivitaet ++ "\n"))

/-- `berechne_monatliche_sparrate` (src/main.py lines 256–271): the
division `sparziel / zeitraum`, with the `ZeroDivisionError` handler
returning an error-message string when `zeitraum` is zero. -/
def berechne_monatliche_sparrate (sparziel : ℚ) (zeitraum : ℤ) : SparrateErgebnis :=
  if zeitraum = 0 then .fehler "Der Zeitraum darf nicht null sein."
  else .rate (sparziel / (zeitraum : ℚ))

/-- The sidebar guard of `main` (src/main.py lines 295–299): on a
non-positive goal or horizon, `st.stop()` halts the run (`none`) before
`berechne_monatliche_sparrate` is ever called. -/
def sparrate_schritt (sparziel : ℚ) (zeitraum : ℤ) : Option SparrateErgebnis :=
  if sparziel ≤ 0 ∨ zeitraum ≤ 0 then none
  else some (berechne_monatliche_sparrate sparziel zeitraum)

/-- `sende_email` (src/main.py lines 225–254): builds the message and runs
the SMTP session inside `try`; the `except Exception` handler turns any
raised transport or authentication error into the returned string, so the
function returns a value in every case. -/
def sende_email (empfaenger betreff inhalt absender smtp_server : String)
    (smtp_port : ℤ) (smtp_user smtp_pass : String)
    (uebertragung : SmtpAusgang) : String :=
  match uebertragung with
  | .erfolg => "Bericht wurde per E-Mail gesendet."
  | .ausnahme e => "Fehler beim Senden der E-Mail: " ++ e

/-- The send-button handler of `main` (src/main.py lines 391–424):
`smtp_user` is the raw sender input; both addresses go through
`validate_email`, and on `EmailNotValidError` the run stops (`none`)
before any delivery attempt; after the all-fields check, the result of
`sende_email` is displayed. -/
def bericht_senden (validiere : String → ValidierungsAusgang)
    (empfaenger absender smtp_server : String) (smtp_port : ℤ) (smtp_pass : String)
    (bericht : String) (uebertragung : SmtpAusgang) : Option String :=
  let smtp_user := absender
  match validiere empfaenger with
  | .ungueltig _ => none
  | .gueltig empfaenger' =>
    match validiere absender with
    | .ungueltig _ => none
    | .gueltig absender' =>
      if empfaenger' = "" ∨ absender' = "" ∨ smtp_server = "" ∨ smtp_port = 0
          ∨ smtp_user = "" ∨ smtp_pass = "" then none
      else
        some (sende_email empfaenger' "Monatsbericht Finanzassistent" bericht
          absender' smtp_server smtp_port smtp_user smtp_pass uebertragung)

/-- `berechne_monatliche_ausgaben` on raw records (src/main.py lines
42–48): `transaktion['kategorie']` and `transaktion['betrag']` are both
read before the sign test, so the first record with a missing key raises
`KeyError` and aborts the whole aggregation. -/
def berechne_monatliche_ausgaben_dict (ausgaben : List (String × ℚ)) :
    List RohTransaktion → AusgabenErgebnis
  | [] => .ok ausgaben
  | t :: rest =>
    match t.kategorie with
    | none => .keyError "kategorie"
    | some kategorie =>
      match t.betrag with
      | none => .keyError "betrag"
      | some betrag =>
        if betrag < 0 then
          berechne_monatliche_ausgaben_dict
            (setze ausgaben kategorie (getD ausgaben kategorie 0 + |betrag|)) rest
        else
          berechne_monatliche_ausgaben_dict ausgaben rest

end Main

namespace StreamlitApp

/-- Loop body of `berechne_monatliche_ausgaben`
(src/streamlit_app.py lines 26–31), duplicated from src/main.py. -/
def berechne_monatliche_ausgaben_schleife (ausgaben : List (String × ℚ)) :
    List Transaktion → List (String × ℚ)
  | [] => ausgaben
  | t :: rest =>
    if t.betrag < 0 then
      berechne_monatliche_ausgaben_schleife
        (setze ausgaben t.kategorie (getD ausgaben t.kategorie 0 + |t.betrag|)) rest
    else
      berechne_monatliche_ausgaben_schleife ausgaben rest

/-- `berechne_monatliche_ausgaben` (src/streamlit_app.py lines 25–32). -/
def berechne_monatliche_ausgaben (daten : List Transaktion) : List (String × ℚ) :=
  berechne_monatliche_ausgaben_schleife [] daten

/-- `analysiere_fitnessdaten` (src/streamlit_app.py lines 85–89). -/
def analysiere_fitnessdaten (fitnessdaten : Fitnessdaten) : ℚ × List String :=
  let schritte := fitnessdaten.schritte_pro_tag.getD []
  let durchschnittsschritte :=
    if schritte ≠ [] then schritte.sum / (schritte.length : ℚ) else 0
  let aktivitaeten := fitnessdaten.sportaktivitaeten.getD []
  (durchschnittsschritte, aktivitaeten)

/-- One recommendation bullet line of the report
(src/streamlit_app.py lines 120–133). -/
def empfehlungs_zeile (prioritaeten : List (String × String))
    (kb : String × ℚ) : String :=
  let prioritaet := getD prioritaeten kb.1 "niedrig"
  if prioritaet = "hoch" then
    let einsparung := kb.2 * 0.5
    let neue_rate := kb.2 - einsparung
    "- **" ++ kb.1 ++ "**: Reduziere auf **" ++ formatFest 2 neue_rate ++
      " Euro** (50% Einsparung)\n"
  else if prioritaet = "mittel" then
    let einsparung := kb.2 * 0.3
    let neue_rate := kb.2 - einsparung
    "- **" ++ kb.1 ++ "**: Reduziere auf **" ++ formatFest 2 neue_rate ++
      " Euro** (30% Einsparung)\n"
  else
    let einsparung := kb.2 * 0.1
    let neue_rate := kb.2 - einsparung
    "- **" ++ kb.1 ++ "**: Reduziere auf **" ++ formatFest 2 neue_rate ++
      " Euro** (10% Einsparung)\n"

/-- The fitness bullet line of the report
(src/streamlit_app.py lines 136–139). -/
def fitness_zeile (durchschnittsschritte : ℚ) : String :=
  if durchschnittsschritte < 8000 then
    "- Dein durchschnittlicher Schrittzahl ist **" ++
      formatFest 0 durchschnittsschritte ++
      "**, versuche mehr zu gehen, um Gesundheit und eventuell Kosten zu sparen.\n"
  else
    "- Dein durchschnittlicher Schrittzahl ist **" ++
      formatFest 0 durchschnittsschritte ++ "**, weiter so!\n"

/-- `erstelle_monatsbericht` (src/streamlit_app.py lines 102–145). -/
def erstelle_monatsbericht (sparziel : ℚ) (zeitraum : ℤ) (monatliche_rate : ℚ)
    (ausgaben : List (String × ℚ)) (praef : Praeferenzen)
    (durchschnittsschritte : ℚ) (aktivitaeten : List String) : String :=
  let bericht := "\n**Monatsbericht**\n=================\n\n**Sparziel:** "
      ++ pyFloatStr sparziel ++ " Euro  \n**Zeitraum:** " ++ toString zeitraum
      ++ " Monate  \n**Monatliche Sparrate:** " ++ formatFest 2 monatliche_rate
      ++ " Euro  \n\n---\n\n**Ausgaben pro Kategorie:**\n"
  let bericht := bericht ++ String.join (ausgaben.map (fun kb =>
      "- **" ++ kb.1 ++ "**: " ++ formatFest 2 kb.2 ++ " Euro\n"))
  let bericht := bericht ++
      "\n**Empfehlungen zur Einsparung basierend auf deinen Präferenzen:**\n"
  let prioritaeten := praef.prioritaeten.getD []
  let bericht := bericht ++ String.join (ausgaben.map (empfehlungs_zeile prioritaeten))
  let bericht := bericht ++ "\n**Empfehlungen basierend auf deinen Fitness-Daten:**\n"
  let bericht := bericht ++ fitness_zeile durchschnittsschritte
  let bericht := bericht ++
      "- **Sportaktivitäten**, die du kostengünstig gestalten kannst:\n"
  bericht ++ String.join (aktivitaeten.map (fun aktivitaet => "  * " ++ aktivitaet ++ "\n"))

/-- `berechne_monatliche_sparrate` (src/streamlit_app.py lines 162–167). -/
def berechne_monatliche_sparrate (sparziel : ℚ) (zeitraum : ℤ) : SparrateErgebnis :=
  if zeitraum = 0 then .fehler "Der Zeitraum darf nicht null sein."
  else .rate (sparziel / (zeitraum : ℚ))

end StreamlitApp

/-- Rendering of one recommendation entry (category, new rate, discount)
as the bullet line printed for it, the percentage keyed by the discount. -/
def eintrag_zeile (eintrag : String × ℚ × ℚ) : String :=
  "- **" ++ eintrag.1 ++ "**: Reduziere auf **" ++ formatFest 2 eintrag.2.1 ++
    (if eintrag.2.2 = 0.5 then " Euro** (50% Einsparung)\n"
     else if eintrag.2.2 = 0.3 then " Euro** (30% Einsparung)\n"
     else " Euro** (10% Einsparung)\n")

theorem getD_setze_gleich {α : Type} (m : List (String × α)) (k : String) (v d : α) :
    getD (setze m k v) k d = v := by
  induction m with
  | nil => simp [setze, getD]
  | cons kv rest ih =>
    obtain ⟨k', v'⟩ := kv
    by_cases h : k' = k <;> simp [setze, getD, h, ih]

theorem getD_setze_anders {α : Type} (m : List (String × α)) (k k' : String) (v d : α)
    (h : k' ≠ k) : getD (setze m k' v) k d = getD m k d := by
  induction m with
  | nil => simp [setze, getD, h]
  | cons kv rest ih =>
    obtain ⟨a, b⟩ := kv
    by_cases ha : a = k' <;> simp [setze, getD, ha, h, ih]

theorem schluessel_setze {α : Type} (m : List (String × α)) (k : String) (v : α) :
    schluessel (setze m k v) =
      if k ∈ schluessel m then schluessel m else schluessel m ++ [k] := by
  induction m with
  | nil => simp [setze, schluessel]
  | cons kv rest ih =>
    obtain ⟨a, b⟩ := kv
    by_cases ha : a = k
    · subst ha; simp [setze, schluessel]
    · have hka : ¬ k = a := fun h => ha h.symm
      simp only [setze, if_neg ha, schluessel, List.map_cons, ih, List.mem_cons, hka,
        false_or]
      by_cases hm : k ∈ List.map Prod.fst rest
      · simpa [schluessel, hm] using ih
      · simpa [schluessel, hm] using ih

theorem ersteVorkommen_kongruenz (l : List String) :
    ∀ g₁ g₂ : List String, (∀ a, a ∈ g₁ ↔ a ∈ g₂) →
      ersteVorkommen g₁ l = ersteVorkommen g₂ l := by
  induction l with
  | nil => intro g₁ g₂ _; rfl
  | cons k rest ih =>
    intro g₁ g₂ h
    by_cases hk : k ∈ g₂
    · rw [ersteVorkommen, ersteVorkommen, if_pos ((h k).mpr hk), if_pos hk, ih g₁ g₂ h]
    · rw [ersteVorkommen, ersteVorkommen, if_neg (fun hx => hk ((h k).mp hx)), if_neg hk]
      exact congrArg (List.cons k) (ih (k :: g₁) (k :: g₂) (by intro a; simp [h a]))

theorem mem_ersteVorkommen (l : List String) :
    ∀ (g : List String) (a : String),
      a ∈ ersteVorkommen g l ↔ a ∈ l ∧ a ∉ g := by
  induction l with
  | nil => simp [ersteVorkommen]
  | cons k rest ih =>
    intro g a
    by_cases hk : k ∈ g
    · rw [ersteVorkommen, if_pos hk, ih g a]
      constructor
      · rintro ⟨ha, hg⟩; exact ⟨List.mem_cons_of_mem _ ha, hg⟩
      · rintro ⟨ha, hg⟩
        rcases List.mem_cons.mp ha with h1 | h1
        · exact absurd (h1 ▸ hk) hg
        · exact ⟨h1, hg⟩
    · rw [ersteVorkommen, if_neg hk]
      simp only [List.mem_cons, ih (k :: g) a]
      by_cases hak : a = k
      · subst hak; simp [hk]
      · simp [hak]

theorem berechne_schleife_getD (daten : List Transaktion) :
    ∀ (acc : List (String × ℚ)) (k : String),
      getD (Main.berechne_monatliche_ausgaben_schleife acc daten) k 0
        = getD acc k 0 +
          ((daten.filter fun t => decide (t.betrag < 0 ∧ t.kategorie = k)).map
              (fun t => |t.betrag|)).sum := by
  induction daten with
  | nil =>
    intro acc k
    simp [Main.berechne_monatliche_ausgaben_schleife]
  | cons t rest ih =>
    intro acc k
    rw [Main.berechne_monatliche_ausgaben_schleife]
    by_cases hb : t.betrag < 0
    · rw [if_pos hb, ih]
      by_cases hk : t.kategorie = k
      · subst hk
        rw [getD_setze_gleich]
        simp [List.filter_cons, hb, add_assoc]
      · rw [getD_setze_anders acc k t.kategorie _ 0 hk]
        simp [List.filter_cons, hk]
    · rw [if_neg hb, ih]
      simp [List.filter_cons, hb]

theorem berechne_schleife_schluessel (daten : List Transaktion) :
    ∀ acc : List (String × ℚ),
      schluessel (Main.berechne_monatliche_ausgaben_schleife acc daten)
        = schluessel acc ++ ersteVorkommen (schluessel acc) (negativKategorien daten) := by
  induction daten with
  | nil =>
    intro acc
    simp [Main.berechne_monatliche_ausgaben_schleife, negativKategorien, ersteVorkommen]
  | cons t rest ih =>
    intro acc
    rw [Main.berechne_monatliche_ausgaben_schleife]
    by_cases hb : t.betrag < 0
    · have hneg : negativKategorien (t :: rest) = t.kategorie :: negativKategorien rest := by
        simp [negativKategorien, List.filter_cons, hb]
      rw [if_pos hb, ih, hneg, schluessel_setze]
      by_cases hm : t.kategorie ∈ schluessel acc
      · rw [if_pos hm, ersteVorkommen, if_pos hm]
      · rw [if_neg hm, ersteVorkommen, if_neg hm, List.append_assoc]
        refine congrArg (schluessel acc ++ ·) ?_
        rw [List.singleton_append]
        refine congrArg (List.cons t.kategorie) ?_
        refine ersteVorkommen_kongruenz _ _ _ ?_
        intro a
        simp [List.mem_append, List.mem_cons, or_comm]
    · have hneg : negativKategorien (t :: rest) = negativKategorien rest := by
        simp [negativKategorien, List.filter_cons, hb]
      rw [if_neg hb, ih, hneg]

/-- C1: for every transaction list, `berechne_monatliche_ausgaben` maps each
category to the sum of `abs(betrag)` over exactly the transactions of that
category with strictly negative `betrag` (grouping by string equality), and
a category appears as a key iff it has such a negative transaction, so
transactions with `betrag ≥ 0` contribute nothing and introduce no key. -/
theorem c1_aggregator_summe_und_schluessel (daten : List Transaktion) (k : String) :
    getD (Main.berechne_monatliche_ausgaben daten) k 0
        = ((daten.filter fun t => decide (t.betrag < 0 ∧ t.kategorie = k)).map
            (fun t => |t.betrag|)).sum
    ∧ (k ∈ schluessel (Main.berechne_monatliche_ausgaben daten)
        ↔ ∃ t ∈ daten, t.betrag < 0 ∧ t.kategorie = k) := by
  constructor
  · have h := berechne_schleife_getD daten [] k
    simpa [Main.berechne_monatliche_ausgaben, getD] using h
  · rw [Main.berechne_monatliche_ausgaben, berechne_schleife_schluessel daten []]
    simp only [schluessel, List.map_nil, List.nil_append, mem_ersteVorkommen,
      List.not_mem_nil, not_false_iff, and_true, negativKategorien, List.mem_map,
      List.mem_filter, decide_eq_true_eq]
    constructor
    · rintro ⟨t, ⟨ht, hneg⟩, hk⟩
      exact ⟨t, ht, hneg, hk⟩
    · rintro ⟨t, ht, hneg, hk⟩
      exact ⟨t, ⟨ht, hneg⟩, hk⟩

theorem rabattsatz_nichtneg (prioritaet : String) : 0 ≤ rabattsatz prioritaet := by
  rw [rabattsatz]
  split
  · norm_num
  · split <;> norm_num

theorem rabattsatz_hoechstens_eins (prioritaet : String) : rabattsatz prioritaet ≤ 1 := by
  rw [rabattsatz]
  split
  · norm_num
  · split <;> norm_num

theorem einsparungs_empfehlung_eq (prioritaeten : List (String × String))
    (kb : String × ℚ) :
    Main.einsparungs_empfehlung prioritaeten kb
      = (kb.1, kb.2 - kb.2 * rabattsatz (getD prioritaeten kb.1 "niedrig"),
          rabattsatz (getD prioritaeten kb.1 "niedrig")) := by
  by_cases h1 : getD prioritaeten kb.1 "niedrig" = "hoch"
  · simp [Main.einsparungs_empfehlung, rabattsatz, h1]
  · by_cases h2 : getD prioritaeten kb.1 "niedrig" = "mittel"
    · simp [Main.einsparungs_empfehlung, rabattsatz, h1, h2]
    · simp [Main.einsparungs_empfehlung, rabattsatz, h1, h2]

/-- C2: each recommendation entry uses the category's preference priority
(defaulting to `"niedrig"` when absent), a discount of 0.5 for `"hoch"`,
0.3 for `"mittel"` and 0.1 otherwise, and suggests `t * (1 - discount)`;
for `t ≥ 0` the suggestion never exceeds `t`. -/
theorem c2_empfehlung_rabattformel (ausgaben : List (String × ℚ)) (praef : Praeferenzen)
    (i : ℕ) (k : String) (t : ℚ)
    (h : ausgaben[i]? = some (k, t)) (ht : 0 ≤ t) :
    (Main.empfehle_einsparungen ausgaben praef)[i]?
        = some (k, t * (1 - rabattsatz (getD (praef.prioritaeten.getD []) k "niedrig")),
            rabattsatz (getD (praef.prioritaeten.getD []) k "niedrig"))
      ∧ t * (1 - rabattsatz (getD (praef.prioritaeten.getD []) k "niedrig")) ≤ t := by
  have hr0 := rabattsatz_nichtneg (getD (praef.prioritaeten.getD []) k "niedrig")
  constructor
  · rw [Main.empfehle_einsparungen]
    simp only [List.getElem?_map, h, Option.map_some', einsparungs_empfehlung_eq]
    have hberechnung : t - t * rabattsatz (getD (praef.prioritaeten.getD []) k "niedrig")
        = t * (1 - rabattsatz (getD (praef.prioritaeten.getD []) k "niedrig")) := by
      ring
    rw [hberechnung]
  · nlinarith [mul_nonneg ht hr0]

/-- Witness for C2 at the spec's example: spend 800 on "Miete" with
priority "hoch" gives suggestion 800 × (1 − 0.5) ≤ 800. -/
theorem c2_empfehlung_rabattformel_zeuge :
    ([(("Miete", 800) : String × ℚ)][0]? = some ("Miete", 800)) ∧ ((0 : ℚ) ≤ 800) ∧
    ((Main.empfehle_einsparungen [("Miete", 800)] (Praeferenzen.mk (some [("Miete", "hoch")])))[0]?
        = some ("Miete",
            800 * (1 - rabattsatz (getD ((Praeferenzen.mk
              (some [("Miete", "hoch")])).prioritaeten.getD []) "Miete" "niedrig")),
            rabattsatz (getD ((Praeferenzen.mk
              (some [("Miete", "hoch")])).prioritaeten.getD []) "Miete" "niedrig"))
      ∧ (800 : ℚ) * (1 - rabattsatz (getD ((Praeferenzen.mk
            (some [("Miete", "hoch")])).prioritaeten.getD []) "Miete" "niedrig")) ≤ 800) :=
  ⟨rfl, by norm_num,
    c2_empfehlung_rabattformel [("Miete", 800)] (Praeferenzen.mk (some [("Miete", "hoch")]))
      0 "Miete" 800 rfl (by norm_num)⟩

theorem empfehle_einsparungen_kategorien (ausgaben : List (String × ℚ))
    (praef : Praeferenzen) :
    (Main.empfehle_einsparungen ausgaben praef).map Prod.fst = schluessel ausgaben := by
  rw [Main.empfehle_einsparungen, List.map_map, schluessel]
  refine List.map_congr_left ?_
  intro kb _
  simp [Function.comp, einsparungs_empfehlung_eq]

theorem empfehlungs_zeile_eq (prioritaeten : List (String × String)) (kb : String × ℚ) :
    Main.empfehlungs_zeile prioritaeten kb
      = eintrag_zeile (Main.einsparungs_empfehlung prioritaeten kb) := by
  have h35 : (0.3 : ℚ) ≠ 0.5 := by norm_num
  have h15 : (0.1 : ℚ) ≠ 0.5 := by norm_num
  have h13 : (0.1 : ℚ) ≠ 0.3 := by norm_num
  by_cases h1 : getD prioritaeten kb.1 "niedrig" = "hoch"
  · simp [Main.empfehlungs_zeile, Main.einsparungs_empfehlung, eintrag_zeile, h1]
  · by_cases h2 : getD prioritaeten kb.1 "niedrig" = "mittel"
    · simp [Main.empfehlungs_zeile, Main.einsparungs_empfehlung, eintrag_zeile,
        h1, h2, h35]
    · simp [Main.empfehlungs_zeile, Main.einsparungs_empfehlung, eintrag_zeile,
        h1, h2, h15, h13]

/-- C8: the recommendation entries appear in exactly the order in which
the aggregator produced the categories — first occurrence of each
category among the negative transactions — and the report's
recommendation lines are these same entries rendered in the same order. -/
theorem c8_empfehlungs_reihenfolge (daten : List Transaktion) (praef : Praeferenzen) :
    (Main.empfehle_einsparungen (Main.berechne_monatliche_ausgaben daten) praef).map
          Prod.fst
        = ersteVorkommen [] (negativKategorien daten)
      ∧ (Main.berechne_monatliche_ausgaben daten).map
            (Main.empfehlungs_zeile (praef.prioritaeten.getD []))
        = (Main.empfehle_einsparungen (Main.berechne_monatliche_ausgaben daten) praef).map
            eintrag_zeile := by
  constructor
  · rw [empfehle_einsparungen_kategorien, Main.berechne_monatliche_ausgaben,
      berechne_schleife_schluessel daten []]
    simp [schluessel]
  · rw [Main.empfehle_einsparungen, List.map_map]
    refine List.map_congr_left ?_
    intro kb _
    simp [Function.comp, empfehlungs_zeile_eq]

/-- C3: the monthly contribution is goal / horizon (1200 over 12 months
gives exactly 100), and a horizon of 0 is rejected by the sidebar guard,
which halts the run (`st.stop`) before `berechne_monatliche_sparrate` —
and with it the division — is ever reached, producing no result. -/
theorem c3_sparrate_und_nullhorizont (sparziel : ℚ) (zeitraum : ℤ)
    (hs : 0 < sparziel) (hz : 0 < zeitraum) :
    Main.sparrate_schritt sparziel zeitraum
        = some (.rate (sparziel / (zeitraum : ℚ)))
      ∧ ∀ ziel : ℚ, Main.sparrate_schritt ziel 0 = none := by
  constructor
  · have hguard : ¬ (sparziel ≤ 0 ∨ zeitraum ≤ 0) := by
      push_neg
      exact ⟨hs, hz⟩
    have hz0 : zeitraum ≠ 0 := by omega
    rw [Main.sparrate_schritt, if_neg hguard, Main.berechne_monatliche_sparrate,
      if_neg hz0]
  · intro ziel
    rw [Main.sparrate_schritt, if_pos (Or.inr le_rfl)]

/-- Witness for C3 at the spec's example: goal 1200 over 12 months gives
monthly contribution exactly 100, while horizon 0 halts the run. -/
theorem c3_sparrate_zeuge :
    Main.sparrate_schritt 1200 12 = some (.rate 100)
      ∧ Main.sparrate_schritt 1200 0 = none := by
  have h := c3_sparrate_und_nullhorizont 1200 12 (by norm_num) (by norm_num)
  refine ⟨?_, h.2 1200⟩
  rw [h.1]
  norm_num

/-- C5: the report builder is deterministic — two invocations on
identical inputs produce identical (byte-identical) report text. -/
theorem c5_monatsbericht_deterministisch
    (s₁ s₂ : ℚ) (z₁ z₂ : ℤ) (m₁ m₂ : ℚ) (a₁ a₂ : List (String × ℚ))
    (p₁ p₂ : Praeferenzen) (d₁ d₂ : ℚ) (akt₁ akt₂ : List String)
    (hs : s₁ = s₂) (hz : z₁ = z₂) (hm : m₁ = m₂) (ha : a₁ = a₂)
    (hp : p₁ = p₂) (hd : d₁ = d₂) (hakt : akt₁ = akt₂) :
    Main.erstelle_monatsbericht s₁ z₁ m₁ a₁ p₁ d₁ akt₁
      = Main.erstelle_monatsbericht s₂ z₂ m₂ a₂ p₂ d₂ akt₂ := by
  subst hs hz hm ha hp hd hakt
  rfl

/-- Witness for C5: two invocations of the report builder on the same
concrete inputs yield the same text. -/
theorem c5_monatsbericht_deterministisch_zeuge :
    Main.erstelle_monatsbericht 1200 12 100 [("Miete", 800)]
        (Praeferenzen.mk (some [("Miete", "hoch")])) 8000 ["Schwimmen"]
      = Main.erstelle_monatsbericht 1200 12 100 [("Miete", 800)]
        (Praeferenzen.mk (some [("Miete", "hoch")])) 8000 ["Schwimmen"] :=
  c5_monatsbericht_deterministisch 1200 1200 12 12 100 100 _ _ _ _ 8000 8000 _ _
    rfl rfl rfl rfl rfl rfl rfl

/-- C6: the fitness analyzer returns average 0 for an empty daily-step
sequence, with no division-by-zero fault, and the arithmetic mean for a
non-empty one. -/
theorem c6_durchschnittsschritte (fitnessdaten : Fitnessdaten) (l : List ℚ)
    (hl : fitnessdaten.schritte_pro_tag.getD [] = l) :
    (l = [] → (Main.analysiere_fitnessdaten fitnessdaten).1 = 0)
      ∧ (l ≠ [] → (Main.analysiere_fitnessdaten fitnessdaten).1
          = l.sum / (l.length : ℚ)) := by
  constructor
  · intro h
    simp [Main.analysiere_fitnessdaten, hl, h]
  · intro h
    simp [Main.analysiere_fitnessdaten, hl, h]

/-- Witness for C6: missing step data yields average 0, and the two-day
sequence [10000, 6000] yields its arithmetic mean. -/
theorem c6_durchschnittsschritte_zeuge :
    ((Fitnessdaten.mk none none).schritte_pro_tag.getD [] = ([] : List ℚ))
      ∧ (Main.analysiere_fitnessdaten (Fitnessdaten.mk none none)).1 = 0
      ∧ (Main.analysiere_fitnessdaten
            (Fitnessdaten.mk (some [10000, 6000]) none)).1
          = ([10000, 6000] : List ℚ).sum / ((([10000, 6000] : List ℚ).length : ℕ) : ℚ) :=
  ⟨rfl, (c6_durchschnittsschritte (Fitnessdaten.mk none none) [] rfl).1 rfl,
    (c6_durchschnittsschritte (Fitnessdaten.mk (some [10000, 6000]) none)
      [10000, 6000] rfl).2 (List.cons_ne_nil _ _)⟩

/-- C7: the step classification thresholds at 8000 with strict less-than:
averages below 8000 select the "below target" branch, averages at or
above 8000 (including exactly 8000, as for daily steps [10000, 6000])
select the "on target" branch, in `empfehle_fitness_und_sparen` and in
the report's fitness line alike. -/
theorem c7_schrittschwelle (durchschnittsschritte : ℚ) :
    (durchschnittsschritte < 8000 →
        Main.empfehle_fitness_und_sparen durchschnittsschritte
          = Schrittbewertung.unter_ziel)
      ∧ (8000 ≤ durchschnittsschritte →
        Main.empfehle_fitness_und_sparen durchschnittsschritte
            = Schrittbewertung.auf_ziel
          ∧ Main.fitness_zeile durchschnittsschritte
            = "- Dein durchschnittlicher Schrittzahl ist **" ++
                formatFest 0 durchschnittsschritte ++ "**, weiter so!\n")
      ∧ Main.empfehle_fitness_und_sparen
          (Main.analysiere_fitnessdaten
            (Fitnessdaten.mk (some [10000, 6000]) none)).1
        = Schrittbewertung.auf_ziel := by
  refine ⟨?_, ?_, ?_⟩
  · intro h
    rw [Main.empfehle_fitness_und_sparen, if_pos h]
  · intro h
    have hnl : ¬ durchschnittsschritte < 8000 := not_lt.mpr h
    exact ⟨by rw [Main.empfehle_fitness_und_sparen, if_neg hnl],
      by rw [Main.fitness_zeile, if_neg hnl]⟩
  · have havg : (Main.analysiere_fitnessdaten
        (Fitnessdaten.mk (some [10000, 6000]) none)).1 = 8000 := by
      norm_num [Main.analysiere_fitnessdaten]
      exact List.cons_ne_nil _ _
    rw [havg, Main.empfehle_fitness_und_sparen, if_neg (by norm_num)]

/-- Witness for C7: average 7999 classifies below target, average 8000
classifies on target. -/
theorem c7_schrittschwelle_zeuge :
    ((7999 : ℚ) < 8000
        ∧ Main.empfehle_fitness_und_sparen 7999 = Schrittbewertung.unter_ziel)
      ∧ ((8000 : ℚ) ≤ 8000
        ∧ Main.empfehle_fitness_und_sparen 8000 = Schrittbewertung.auf_ziel) :=
  ⟨⟨by norm_num, (c7_schrittschwelle 7999).1 (by norm_num)⟩,
    ⟨by norm_num, ((c7_schrittschwelle 8000).2.1 (by norm_num)).1⟩⟩

/-- C4: both addresses are validated before any delivery is attempted —
if either validation fails, the send-button handler stops with no result,
whatever the transport would have done — and `sende_email` turns every
transport or authentication failure raised during sending into a returned
failure message carrying the underlying cause, so no exception propagates
past the caller. -/
theorem c4_notifier_validierung_und_fehlerwert
    (validiere : String → ValidierungsAusgang)
    (empfaenger absender smtp_server : String) (smtp_port : ℤ)
    (smtp_pass bericht meldung : String)
    (h : validiere empfaenger = .ungueltig meldung
        ∨ validiere absender = .ungueltig meldung) :
    (∀ uebertragung, Main.bericht_senden validiere empfaenger absender smtp_server
        smtp_port smtp_pass bericht uebertragung = none)
      ∧ ∀ grund, Main.sende_email empfaenger "Monatsbericht Finanzassistent" bericht
            absender smtp_server smtp_port absender smtp_pass (.ausnahme grund)
          = "Fehler beim Senden der E-Mail: " ++ grund := by
  constructor
  · intro uebertragung
    rcases h with h1 | h1
    · simp [Main.bericht_senden, h1]
    · cases he : validiere empfaenger with
      | ungueltig m => simp [Main.bericht_senden, he]
      | gueltig e' => simp [Main.bericht_senden, he, h1]
  · intro grund
    rfl

/-- Witness for C4: an empty recipient fails validation and the handler
stops before sending; a concrete authentication exception comes back as
the error string. -/
theorem c4_notifier_zeuge :
    (beispiel_validierung "" = ValidierungsAusgang.ungueltig "leer"
        ∨ beispiel_validierung "a@b.de" = ValidierungsAusgang.ungueltig "leer")
      ∧ Main.bericht_senden beispiel_validierung "" "a@b.de" "smtp.example.org" 587
          "geheim" "Bericht" SmtpAusgang.erfolg = none
      ∧ Main.sende_email "" "Monatsbericht Finanzassistent" "Bericht" "a@b.de"
          "smtp.example.org" 587 "a@b.de" "geheim"
          (SmtpAusgang.ausnahme "SMTPAuthenticationError")
        = "Fehler beim Senden der E-Mail: " ++ "SMTPAuthenticationError" := by
  have h := c4_notifier_validierung_und_fehlerwert beispiel_validierung ""
    "a@b.de" "smtp.example.org" 587 "geheim" "Bericht" "leer" (Or.inl rfl)
  exact ⟨Or.inl rfl, h.1 SmtpAusgang.erfolg, h.2 "SMTPAuthenticationError"⟩

theorem berechne_schleifen_gleich (daten : List Transaktion) :
    ∀ acc, Main.berechne_monatliche_ausgaben_schleife acc daten
      = StreamlitApp.berechne_monatliche_ausgaben_schleife acc daten := by
  induction daten with
  | nil => intro acc; rfl
  | cons t rest ih =>
    intro acc
    rw [Main.berechne_monatliche_ausgaben_schleife,
      StreamlitApp.berechne_monatliche_ausgaben_schleife]
    by_cases hb : t.betrag < 0
    · rw [if_pos hb, if_pos hb, ih]
    · rw [if_neg hb, if_neg hb, ih]

/-- C9: the duplicated core functions of src/main.py and
src/streamlit_app.py implement the same logic: aggregator, fitness
analyzer, report builder and monthly-rate calculator return identical
results on every input, so the duplicates collapse to one implementation. -/
theorem c9_duplikate_aequivalent :
    (∀ daten : List Transaktion,
        Main.berechne_monatliche_ausgaben daten
          = StreamlitApp.berechne_monatliche_ausgaben daten)
      ∧ (∀ fitnessdaten : Fitnessdaten,
        Main.analysiere_fitnessdaten fitnessdaten
          = StreamlitApp.analysiere_fitnessdaten fitnessdaten)
      ∧ (∀ (sparziel : ℚ) (zeitraum : ℤ) (monatliche_rate : ℚ)
            (ausgaben : List (String × ℚ)) (praef : Praeferenzen)
            (durchschnittsschritte : ℚ) (aktivitaeten : List String),
        Main.erstelle_monatsbericht sparziel zeitraum monatliche_rate ausgaben praef
            durchschnittsschritte aktivitaeten
          = StreamlitApp.erstelle_monatsbericht sparziel zeitraum monatliche_rate
            ausgaben praef durchschnittsschritte aktivitaeten)
      ∧ (∀ (sparziel : ℚ) (zeitraum : ℤ),
        Main.berechne_monatliche_sparrate sparziel zeitraum
          = StreamlitApp.berechne_monatliche_sparrate sparziel zeitraum) :=
  ⟨fun daten => berechne_schleifen_gleich daten [],
    fun fitnessdaten => rfl,
    fun sparziel zeitraum monatliche_rate ausgaben praef durchschnittsschritte
        aktivitaeten => rfl,
    fun sparziel zeitraum => rfl⟩

theorem berechne_dict_fehlt_schluessel (daten : List RohTransaktion) :
    ∀ acc, (∃ t ∈ daten, t.kategorie = none ∨ t.betrag = none) →
      Main.berechne_monatliche_ausgaben_dict acc daten = .keyError "kategorie"
        ∨ Main.berechne_monatliche_ausgaben_dict acc daten = .keyError "betrag" := by
  induction daten with
  | nil =>
    intro acc h
    simp at h
  | cons t rest ih =>
    intro acc h
    cases hk : t.kategorie with
    | none =>
      left
      simp [Main.berechne_monatliche_ausgaben_dict, hk]
    | some kategorie =>
      cases hbk : t.betrag with
      | none =>
        right
        simp [Main.berechne_monatliche_ausgaben_dict, hk, hbk]
      | some betrag =>
        have hrest : ∃ t' ∈ rest, t'.kategorie = none ∨ t'.betrag = none := by
          rcases h with ⟨t', ht', hmal⟩
          rcases List.mem_cons.mp ht' with rfl | hmem
          · rcases hmal with h1 | h1
            · rw [h1] at hk; exact absurd hk (by simp)
            · rw [h1] at hbk; exact absurd hbk (by simp)
          · exact ⟨t', hmem, hmal⟩
        rw [Main.berechne_monatliche_ausgaben_dict]
        simp only [hk, hbk]
        by_cases hneg : betrag < 0
        · rw [if_pos hneg]
          exact ih _ hrest
        · rw [if_neg hneg]
          exact ih acc hrest

/-- C10: a transaction list containing a record that lacks the
`'kategorie'` or the `'betrag'` key makes the aggregation fail with a
`KeyError` instead of returning any mapping — both keys are read before
the sign test, so even a malformed record with a non-negative amount
aborts the whole aggregation rather than being skipped. -/
theorem c10_fehlender_schluessel (daten : List RohTransaktion)
    (h : ∃ t ∈ daten, t.kategorie = none ∨ t.betrag = none) :
    (Main.berechne_monatliche_ausgaben_dict [] daten = .keyError "kategorie"
        ∨ Main.berechne_monatliche_ausgaben_dict [] daten = .keyError "betrag")
      ∧ ∀ ausgaben, Main.berechne_monatliche_ausgaben_dict [] daten
          ≠ .ok ausgaben := by
  have hd := berechne_dict_fehlt_schluessel daten [] h
  refine ⟨hd, ?_⟩
  intro ausgaben hok
  rcases hd with h1 | h1 <;> rw [hok] at h1 <;> exact absurd h1 (by simp)

/-- Witness for C10: a record carrying only `betrag` 2000 (non-negative,
the `'kategorie'` key missing) aborts the aggregation with a `KeyError`
rather than being skipped. -/
theorem c10_fehlender_schluessel_zeuge :
    (∃ t ∈ [RohTransaktion.mk none (some 2000)],
        t.kategorie = none ∨ t.betrag = none)
      ∧ (Main.berechne_monatliche_ausgaben_dict [] [RohTransaktion.mk none (some 2000)]
            = .keyError "kategorie"
          ∨ Main.berechne_monatliche_ausgaben_dict [] [RohTransaktion.mk none (some 2000)]
            = .keyError "betrag")
      ∧ Main.berechne_monatliche_ausgaben_dict [] [RohTransaktion.mk none (some 2000)]
          ≠ .ok [] := by
  have h := c10_fehlender_schluessel [RohTransaktion.mk none (some 2000)]
    ⟨RohTransaktion.mk none (some 2000), by simp, Or.inl rfl⟩
  exact ⟨⟨RohTransaktion.mk none (some 2000), by simp, Or.inl rfl⟩, h.1, h.2 []⟩
